import Mathlib

/-!
Shallow embedding of the 2D "Stable Fluids" solver from
`fluid_simulator/fluid_simulator_pro.py` (class `Fluid`), with the shared
free functions of `fluid_simulator_base.py` coinciding on the modelled
fragment.  Grids of shape `(N+2) × (N+2)` are modelled as total functions
`ℕ → ℕ → ℚ`; only indices `0 .. N+1` are ever read by the operations.
Machine floats are modelled by exact rationals; the single transcendental
call (`np.sqrt` inside vorticity confinement) is modelled by an explicit
function parameter `sq : ℚ → ℚ`.
-/

abbrev Grid : Type := ℕ → ℕ → ℚ

def zeroGrid : Grid := fun _ _ => 0

/-- Python `clamp(x, lo, hi) = lo if x < lo else hi if x > hi else x`. -/
def clampI (x lo hi : ℤ) : ℤ := if x < lo then lo else if x > hi then hi else x

/-! ## Boundary conditions: `Fluid.set_bnd`

The numpy method performs eight in-place writes in order: top edge, bottom
edge, left edge, right edge, then the four corners.  Each write is modelled
as one grid-to-grid update; `set_bnd` is their composition in source order. -/

/-- `x[0, 1:-1] = -x[1, 1:-1] if b == 1 else x[1, 1:-1]`. -/
def updTop (N b : ℕ) (x : Grid) : Grid := fun i j =>
  if i = 0 ∧ 1 ≤ j ∧ j ≤ N then (if b = 1 then -(x 1 j) else x 1 j) else x i j

/-- `x[N+1, 1:-1] = -x[N, 1:-1] if b == 1 else x[N, 1:-1]`. -/
def updBottom (N b : ℕ) (x : Grid) : Grid := fun i j =>
  if i = N + 1 ∧ 1 ≤ j ∧ j ≤ N then (if b = 1 then -(x N j) else x N j) else x i j

/-- `x[1:-1, 0] = -x[1:-1, 1] if b == 2 else x[1:-1, 1]`. -/
def updLeft (N b : ℕ) (x : Grid) : Grid := fun i j =>
  if j = 0 ∧ 1 ≤ i ∧ i ≤ N then (if b = 2 then -(x i 1) else x i 1) else x i j

/-- `x[1:-1, N+1] = -x[1:-1, N] if b == 2 else x[1:-1, N]`. -/
def updRight (N b : ℕ) (x : Grid) : Grid := fun i j =>
  if j = N + 1 ∧ 1 ≤ i ∧ i ≤ N then (if b = 2 then -(x i N) else x i N) else x i j

/-- `x[0, 0] = 0.5 * (x[1, 0] + x[0, 1])`. -/
def updC00 (x : Grid) : Grid := fun i j =>
  if i = 0 ∧ j = 0 then (1/2 : ℚ) * (x 1 0 + x 0 1) else x i j

/-- `x[0, N+1] = 0.5 * (x[1, N+1] + x[0, N])`. -/
def updC0R (N : ℕ) (x : Grid) : Grid := fun i j =>
  if i = 0 ∧ j = N + 1 then (1/2 : ℚ) * (x 1 (N+1) + x 0 N) else x i j

/-- `x[N+1, 0] = 0.5 * (x[N, 0] + x[N+1, 1])`. -/
def updCB0 (N : ℕ) (x : Grid) : Grid := fun i j =>
  if i = N + 1 ∧ j = 0 then (1/2 : ℚ) * (x N 0 + x (N+1) 1) else x i j

/-- `x[N+1, N+1] = 0.5 * (x[N, N+1] + x[N+1, N])`. -/
def updCBR (N : ℕ) (x : Grid) : Grid := fun i j =>
  if i = N + 1 ∧ j = N + 1 then (1/2 : ℚ) * (x N (N+1) + x (N+1) N) else x i j

/-- `Fluid.set_bnd(b, x)`: the eight boundary writes in source order. -/
def set_bnd (N b : ℕ) (x : Grid) : Grid :=
  updCBR N (updCB0 N (updC0R N (updC00 (updRight N b (updLeft N b
    (updBottom N b (updTop N b x)))))))

/-! ## Sources, diffusion, advection, projection, forces -/

/-- `Fluid.add_source(x, s, dt)`: `x += dt * s`, every cell of the full
`(N+2) × (N+2)` array, ghost cells included. -/
def add_source (x s : Grid) (dt : ℚ) : Grid := fun i j => x i j + dt * s i j

/-- One Jacobi sweep of `Fluid.diffuse`: the interior is rebuilt from `x0`
and the previous sweep values of `x`, then `set_bnd` is applied. -/
def diffuseIter (N b : ℕ) (x0 : Grid) (a c : ℚ) (x : Grid) : Grid :=
  set_bnd N b (fun i j =>
    if 1 ≤ i ∧ i ≤ N ∧ 1 ≤ j ∧ j ≤ N then
      c * (x0 i j + a * (x (i-1) j + x (i+1) j + x i (j-1) + x i (j+1)))
    else x i j)

/-- `Fluid.diffuse(b, x, x0, diff, dt)` with `a = dt*diff*N*N`,
`c = 1/(1+4a)`, and `iters` Jacobi sweeps. -/
def diffuse (N b : ℕ) (x x0 : Grid) (diff dt : ℚ) (iters : ℕ) : Grid :=
  let a := dt * diff * (N : ℚ) * (N : ℚ)
  let c := 1 / (1 + 4 * a)
  (diffuseIter N b x0 a c)^[iters] x

/-- Backtraced and clamped x-coordinate of `Fluid.advect`:
`np.clip(I - dt*N*u[i,j], 0.5, N + 0.5)`. -/
def backX (N : ℕ) (u : Grid) (dt : ℚ) (i j : ℕ) : ℚ :=
  min (max ((i : ℚ) - dt * (N : ℚ) * u i j) (1/2)) ((N : ℚ) + 1/2)

/-- Backtraced and clamped y-coordinate of `Fluid.advect`:
`np.clip(J - dt*N*v[i,j], 0.5, N + 0.5)`. -/
def backY (N : ℕ) (v : Grid) (dt : ℚ) (i j : ℕ) : ℚ :=
  min (max ((j : ℚ) - dt * (N : ℚ) * v i j) (1/2)) ((N : ℚ) + 1/2)

/-- Bilinear sample of `d0` at the backtraced position of interior cell
`(i, j)`: sample indices are `i0 = int(x)` and `i0 + 1` (int truncation
equals floor since the clamped coordinates are at least `1/2 > 0`), and the
weights are `s1 = x - i0`, `s0 = 1 - s1`, `t1 = y - j0`, `t0 = 1 - t1`. -/
def bilinSample (N : ℕ) (d0 u v : Grid) (dt : ℚ) (i j : ℕ) : ℚ :=
  let x := backX N u dt i j
  let y := backY N v dt i j
  let i0 := ⌊x⌋
  let j0 := ⌊y⌋
  let s1 := x - (i0 : ℚ)
  let s0 := 1 - s1
  let t1 := y - (j0 : ℚ)
  let t0 := 1 - t1
  s0 * (t0 * d0 i0.toNat j0.toNat + t1 * d0 i0.toNat (j0.toNat + 1)) +
  s1 * (t0 * d0 (i0.toNat + 1) j0.toNat + t1 * d0 (i0.toNat + 1) (j0.toNat + 1))

/-- `Fluid.advect(b, d, d0, u, v, dt)`: semi-Lagrangian backtrace with
bilinear resampling of `d0` on the interior, followed by `set_bnd`. -/
def advect (N b : ℕ) (d d0 u v : Grid) (dt : ℚ) : Grid :=
  set_bnd N b (fun i j =>
    if 1 ≤ i ∧ i ≤ N ∧ 1 ≤ j ∧ j ≤ N then bilinSample N d0 u v dt i j
    else d i j)

/-- One Jacobi sweep of the pressure Poisson solve inside `Fluid.project`. -/
def projectIter (N : ℕ) (divg : Grid) (p : Grid) : Grid :=
  set_bnd N 0 (fun i j =>
    if 1 ≤ i ∧ i ≤ N ∧ 1 ≤ j ∧ j ≤ N then
      (1/4 : ℚ) * (divg i j + p (i-1) j + p (i+1) j + p i (j-1) + p i (j+1))
    else p i j)

/-- Divergence stage of `Fluid.project`:
`div[1:-1,1:-1] = -0.5 * (u[2:,1:-1]-u[0:-2,1:-1] + v[1:-1,2:]-v[1:-1,0:-2]) / N`
on the interior of the incoming `div` buffer, then `set_bnd(0, div)`. -/
def divStage (N : ℕ) (u v divg : Grid) : Grid :=
  set_bnd N 0 (fun i j =>
    if 1 ≤ i ∧ i ≤ N ∧ 1 ≤ j ∧ j ≤ N then
      -(1/2 : ℚ) * ((u (i+1) j - u (i-1) j) + (v i (j+1) - v i (j-1))) / (N : ℚ)
    else divg i j)

/-- Pressure stage of `Fluid.project`: `p.fill(0)`, `set_bnd(0, p)`, then
`iters` Jacobi sweeps of the Poisson solve against the divergence. -/
def pSolve (N iters : ℕ) (divg2 : Grid) : Grid :=
  (projectIter N divg2)^[iters] (set_bnd N 0 zeroGrid)

/-- Gradient-subtraction stage of `Fluid.project` for `u`:
`u[1:-1,1:-1] -= 0.5 * N * (p[2:,1:-1] - p[0:-2,1:-1])`, then `set_bnd(1, u)`. -/
def gradU (N : ℕ) (u p3 : Grid) : Grid :=
  set_bnd N 1 (fun i j =>
    if 1 ≤ i ∧ i ≤ N ∧ 1 ≤ j ∧ j ≤ N then
      u i j - (1/2 : ℚ) * (N : ℚ) * (p3 (i+1) j - p3 (i-1) j)
    else u i j)

/-- Gradient-subtraction stage of `Fluid.project` for `v`:
`v[1:-1,1:-1] -= 0.5 * N * (p[1:-1,2:] - p[1:-1,0:-2])`, then `set_bnd(2, v)`. -/
def gradV (N : ℕ) (v p3 : Grid) : Grid :=
  set_bnd N 2 (fun i j =>
    if 1 ≤ i ∧ i ≤ N ∧ 1 ≤ j ∧ j ≤ N then
      v i j - (1/2 : ℚ) * (N : ℚ) * (p3 i (j+1) - p3 i (j-1))
    else v i j)

/-- `Fluid.project(u, v, p, div)`: divergence, zeroed pressure, boundary
rules, `iters` Poisson sweeps, and subtraction of the pressure gradient.
Returns the updated `(u, v, p, div)`; the incoming `p` is discarded by
`p.fill(0.0)`. -/
def project (N iters : ℕ) (u v p divg : Grid) : Grid × Grid × Grid × Grid :=
  let divg2 := divStage N u v divg
  let p3 := pSolve N iters divg2
  let _unused := p
  (gradU N u p3, gradV N v p3, p3, divg2)

/-- Scalar vorticity of `Fluid.vorticity_confinement`:
`curl = ((v[2:,1:-1]-v[0:-2,1:-1]) - (u[1:-1,2:]-u[1:-1,0:-2])) * 0.5` on the
interior of a `zeros_like` array. -/
def curlG (N : ℕ) (u v : Grid) : Grid := fun i j =>
  if 1 ≤ i ∧ i ≤ N ∧ 1 ≤ j ∧ j ≤ N then
    ((v (i+1) j - v (i-1) j) - (u i (j+1) - u i (j-1))) * (1/2 : ℚ)
  else 0

/-- `absw = np.abs(curl)`. -/
def abswG (N : ℕ) (u v : Grid) : Grid := fun i j => |curlG N u v i j|

/-- `Nx[1:-1,1:-1] = (absw[2:,1:-1] - absw[0:-2,1:-1]) * 0.5` on a
`zeros_like` array. -/
def nxG (N : ℕ) (u v : Grid) : Grid := fun i j =>
  if 1 ≤ i ∧ i ≤ N ∧ 1 ≤ j ∧ j ≤ N then
    (abswG N u v (i+1) j - abswG N u v (i-1) j) * (1/2 : ℚ)
  else 0

/-- `Ny[1:-1,1:-1] = (absw[1:-1,2:] - absw[1:-1,0:-2]) * 0.5` on a
`zeros_like` array. -/
def nyG (N : ℕ) (u v : Grid) : Grid := fun i j =>
  if 1 ≤ i ∧ i ≤ N ∧ 1 ≤ j ∧ j ≤ N then
    (abswG N u v i (j+1) - abswG N u v i (j-1)) * (1/2 : ℚ)
  else 0

/-- `mag = np.sqrt(Nx*Nx + Ny*Ny) + 1e-6`, with `np.sqrt` modelled by the
explicit function parameter `sq`. -/
def magG (N : ℕ) (sq : ℚ → ℚ) (u v : Grid) : Grid := fun i j =>
  sq (nxG N u v i j * nxG N u v i j + nyG N u v i j * nyG N u v i j) + 1/1000000

/-- `Fx = eps * (Ny/mag) * curl` (after the in-place normalization). -/
def fxG (N : ℕ) (sq : ℚ → ℚ) (u v : Grid) (eps : ℚ) : Grid := fun i j =>
  eps * (nyG N u v i j / magG N sq u v i j) * curlG N u v i j

/-- `Fy = -eps * (Nx/mag) * curl` (after the in-place normalization). -/
def fyG (N : ℕ) (sq : ℚ → ℚ) (u v : Grid) (eps : ℚ) : Grid := fun i j =>
  -eps * (nxG N u v i j / magG N sq u v i j) * curlG N u v i j

/-- `Fluid.vorticity_confinement(u, v, eps, dt)`: early return when
`eps <= 0`; otherwise interior force injection then the two boundary
rules. -/
def vorticity_confinement (N : ℕ) (sq : ℚ → ℚ) (u v : Grid) (eps dt : ℚ) :
    Grid × Grid :=
  if eps ≤ 0 then (u, v)
  else
    (set_bnd N 1 (fun i j =>
       if 1 ≤ i ∧ i ≤ N ∧ 1 ≤ j ∧ j ≤ N then
         u i j + dt * fxG N sq u v eps i j
       else u i j),
     set_bnd N 2 (fun i j =>
       if 1 ≤ i ∧ i ≤ N ∧ 1 ≤ j ∧ j ≤ N then
         v i j + dt * fyG N sq u v eps i j
       else v i j))

/-- `Fluid.buoyancy_force(v, dens, coeff, dt)`: early return when
`coeff <= 0`; otherwise `v[1:-1,1:-1] += dt*coeff*dens[1:-1,1:-1]` then the
vertical-velocity boundary rule. -/
def buoyancy_force (N : ℕ) (v dens : Grid) (coeff dt : ℚ) : Grid :=
  if coeff ≤ 0 then v
  else set_bnd N 2 (fun i j =>
    if 1 ≤ i ∧ i ≤ N ∧ 1 ≤ j ∧ j ≤ N then v i j + dt * coeff * dens i j
    else v i j)

/-! ## FluidState and the per-tick orchestration -/

/-- `Params` dataclass of `fluid_simulator_pro.py`. -/
structure Params where
  N : ℕ
  dt : ℚ
  diff : ℚ
  visc : ℚ
  iters : ℕ
  buoyancy : ℚ
  vorticity : ℚ

/-- The eight field buffers owned by `Fluid` (the spec's FluidState):
velocity `u, v`, their scratch `u0, v0`, density and its scratch, pressure
and divergence. -/
@[ext]
structure FluidState where
  u : Grid
  v : Grid
  u0 : Grid
  v0 : Grid
  dens : Grid
  dens0 : Grid
  p : Grid
  div : Grid

/-- The all-zero state (`Fluid.__init__` zero-fills every buffer). -/
def zeroFS : FluidState :=
  { u := zeroGrid, v := zeroGrid, u0 := zeroGrid, v0 := zeroGrid,
    dens := zeroGrid, dens0 := zeroGrid, p := zeroGrid, div := zeroGrid }

/-- Every cell of every one of the eight fields is zero. -/
def allZero (s : FluidState) : Prop :=
  ∀ i j : ℕ, s.u i j = 0 ∧ s.v i j = 0 ∧ s.u0 i j = 0 ∧ s.v0 i j = 0 ∧
    s.dens i j = 0 ∧ s.dens0 i j = 0 ∧ s.p i j = 0 ∧ s.div i j = 0

/-- `Fluid.vel_step(dt)`, statement by statement from the source. -/
def vel_step (P : Params) (dt : ℚ) (sq : ℚ → ℚ) (s : FluidState) : FluidState :=
  let u1 := add_source s.u s.u0 dt
  let v1 := add_source s.v s.v0 dt
  let u0a := zeroGrid
  let v0a := zeroGrid
  let v2 := buoyancy_force P.N v1 s.dens P.buoyancy dt
  let (u2, v3) := vorticity_confinement P.N sq u1 v2 P.vorticity dt
  let u0b := u2
  let v0b := v3
  let u3 := diffuse P.N 1 u2 u0b P.visc dt P.iters
  let v4 := diffuse P.N 2 v3 v0b P.visc dt P.iters
  let (u4, v5, p1, d1) := project P.N P.iters u3 v4 s.p s.div
  let u0c := u4
  let v0c := v5
  let u5 := advect P.N 1 u4 u0c u0c v0c dt
  let v6 := advect P.N 2 v5 v0c u0c v0c dt
  let (u6, v7, p2, d2) := project P.N P.iters u5 v6 p1 d1
  let _unused := (u0a, v0a)
  { s with u := u6, v := v7, u0 := u0c, v0 := v0c, p := p2, div := d2 }

/-- `Fluid.dens_step(dt)`, statement by statement from the source. -/
def dens_step (P : Params) (dt : ℚ) (s : FluidState) : FluidState :=
  let d1 := add_source s.dens s.dens0 dt
  let d0a := zeroGrid
  let d0b := d1
  let d2 := diffuse P.N 0 d1 d0b P.diff dt P.iters
  let d0c := d2
  let d3 := advect P.N 0 d2 d0c s.u s.v dt
  let _unused := d0a
  { s with dens := d3, dens0 := d0c }

/-- `Fluid.step(dt)`: velocity sub-step then density sub-step. -/
def step (P : Params) (dt : ℚ) (sq : ℚ → ℚ) (s : FluidState) : FluidState :=
  dens_step P dt (vel_step P dt sq s)

/-- `Fluid.add_density_brush(i, j, amount, radius)`: clamp the center into
`[1, N]`, coerce the radius to `r = max(1, radius)`, and add `amount` to
every cell of the disk `(ii-i)² + (jj-j)² ≤ r²` inside the clipped loop
ranges. -/
def add_density_brush (N : ℕ) (i j : ℤ) (amount : ℚ) (radius : ℤ)
    (dens0 : Grid) : Grid :=
  let ci := clampI i 1 N
  let cj := clampI j 1 N
  let r := max 1 radius
  fun ii jj =>
    if max 1 (ci - r) ≤ (ii : ℤ) ∧ (ii : ℤ) ≤ min (N : ℤ) (ci + r) ∧
       max 1 (cj - r) ≤ (jj : ℤ) ∧ (jj : ℤ) ≤ min (N : ℤ) (cj + r) ∧
       ((ii : ℤ) - ci) ^ 2 + ((jj : ℤ) - cj) ^ 2 ≤ r * r
    then dens0 ii jj + amount else dens0 ii jj

/-- The brush as a state transformer: it writes only the density-source
scratch buffer `dens0`. -/
def addDensityBrushFS (N : ℕ) (i j : ℤ) (amount : ℚ) (radius : ℤ)
    (s : FluidState) : FluidState :=
  { s with dens0 := add_density_brush N i j amount radius s.dens0 }

/-! ## The velocity sub-step phases as the specification states them

Section 4.6 of the specification describes the velocity sub-step as a fixed
sequence of phases.  Each sentence of that sequence is one state
transformer below, and `velStepSpec` is their composition in the stated
order: sources, buoyancy, vorticity confinement, copy, diffuse, project,
copy, advect, project. -/

/-- Spec phase: apply queued sources to `u, v` from `u0, v0` and zero the
source buffers. -/
def phaseSources (dt : ℚ) (s : FluidState) : FluidState :=
  { s with u := add_source s.u s.u0 dt, v := add_source s.v s.v0 dt,
           u0 := zeroGrid, v0 := zeroGrid }

/-- Spec phase: apply buoyancy. -/
def phaseBuoyancy (P : Params) (dt : ℚ) (s : FluidState) : FluidState :=
  { s with v := buoyancy_force P.N s.v s.dens P.buoyancy dt }

/-- Spec phase: apply vorticity confinement. -/
def phaseVorticity (P : Params) (dt : ℚ) (sq : ℚ → ℚ) (s : FluidState) :
    FluidState :=
  let (u1, v1) := vorticity_confinement P.N sq s.u s.v P.vorticity dt
  { s with u := u1, v := v1 }

/-- Spec phase: copy `u, v` into `u0, v0`. -/
def phaseCopyVel (s : FluidState) : FluidState := { s with u0 := s.u, v0 := s.v }

/-- Spec phase: diffuse `u, v` using `u0, v0` as the pre-diffusion
reference. -/
def phaseDiffuse (P : Params) (dt : ℚ) (s : FluidState) : FluidState :=
  { s with u := diffuse P.N 1 s.u s.u0 P.visc dt P.iters,
           v := diffuse P.N 2 s.v s.v0 P.visc dt P.iters }

/-- Spec phase: project. -/
def phaseProject (P : Params) (s : FluidState) : FluidState :=
  let (u1, v1, p1, d1) := project P.N P.iters s.u s.v s.p s.div
  { s with u := u1, v := v1, p := p1, div := d1 }

/-- Spec phase: advect `u, v` using the same velocity field (the fresh
copies in `u0, v0`) as both the transported quantity and the transporting
field. -/
def phaseAdvect (P : Params) (dt : ℚ) (s : FluidState) : FluidState :=
  { s with u := advect P.N 1 s.u s.u0 s.u0 s.v0 dt,
           v := advect P.N 2 s.v s.v0 s.u0 s.v0 dt }

/-- The velocity sub-step exactly as ordered by the specification:
sources, buoyancy, vorticity confinement, copy, diffuse, project, copy,
advect, project. -/
def velStepSpec (P : Params) (dt : ℚ) (sq : ℚ → ℚ) (s : FluidState) :
    FluidState :=
  phaseProject P (phaseAdvect P dt (phaseCopyVel (phaseProject P
    (phaseDiffuse P dt (phaseCopyVel (phaseVorticity P dt sq
      (phaseBuoyancy P dt (phaseSources dt s))))))))


/-! ### Pass-through and hit lemmas for the individual boundary writes -/

theorem updTop_skip {N b : ℕ} {x : Grid} {i j : ℕ}
    (h : ¬(i = 0 ∧ 1 ≤ j ∧ j ≤ N)) : updTop N b x i j = x i j := if_neg h

theorem updTop_hit {N b : ℕ} {x : Grid} {i j : ℕ}
    (h : i = 0 ∧ 1 ≤ j ∧ j ≤ N) :
    updTop N b x i j = (if b = 1 then -(x 1 j) else x 1 j) := if_pos h

theorem updBottom_skip {N b : ℕ} {x : Grid} {i j : ℕ}
    (h : ¬(i = N + 1 ∧ 1 ≤ j ∧ j ≤ N)) : updBottom N b x i j = x i j := if_neg h

theorem updBottom_hit {N b : ℕ} {x : Grid} {i j : ℕ}
    (h : i = N + 1 ∧ 1 ≤ j ∧ j ≤ N) :
    updBottom N b x i j = (if b = 1 then -(x N j) else x N j) := if_pos h

theorem updLeft_skip {N b : ℕ} {x : Grid} {i j : ℕ}
    (h : ¬(j = 0 ∧ 1 ≤ i ∧ i ≤ N)) : updLeft N b x i j = x i j := if_neg h

theorem updLeft_hit {N b : ℕ} {x : Grid} {i j : ℕ}
    (h : j = 0 ∧ 1 ≤ i ∧ i ≤ N) :
    updLeft N b x i j = (if b = 2 then -(x i 1) else x i 1) := if_pos h

theorem updRight_skip {N b : ℕ} {x : Grid} {i j : ℕ}
    (h : ¬(j = N + 1 ∧ 1 ≤ i ∧ i ≤ N)) : updRight N b x i j = x i j := if_neg h

theorem updRight_hit {N b : ℕ} {x : Grid} {i j : ℕ}
    (h : j = N + 1 ∧ 1 ≤ i ∧ i ≤ N) :
    updRight N b x i j = (if b = 2 then -(x i N) else x i N) := if_pos h

theorem updC00_skip {x : Grid} {i j : ℕ}
    (h : ¬(i = 0 ∧ j = 0)) : updC00 x i j = x i j := if_neg h

theorem updC00_hit {x : Grid} {i j : ℕ}
    (h : i = 0 ∧ j = 0) : updC00 x i j = (1/2 : ℚ) * (x 1 0 + x 0 1) := if_pos h

theorem updC0R_skip {N : ℕ} {x : Grid} {i j : ℕ}
    (h : ¬(i = 0 ∧ j = N + 1)) : updC0R N x i j = x i j := if_neg h

theorem updC0R_hit {N : ℕ} {x : Grid} {i j : ℕ}
    (h : i = 0 ∧ j = N + 1) :
    updC0R N x i j = (1/2 : ℚ) * (x 1 (N+1) + x 0 N) := if_pos h

theorem updCB0_skip {N : ℕ} {x : Grid} {i j : ℕ}
    (h : ¬(i = N + 1 ∧ j = 0)) : updCB0 N x i j = x i j := if_neg h

theorem updCB0_hit {N : ℕ} {x : Grid} {i j : ℕ}
    (h : i = N + 1 ∧ j = 0) :
    updCB0 N x i j = (1/2 : ℚ) * (x N 0 + x (N+1) 1) := if_pos h

theorem updCBR_skip {N : ℕ} {x : Grid} {i j : ℕ}
    (h : ¬(i = N + 1 ∧ j = N + 1)) : updCBR N x i j = x i j := if_neg h

theorem updCBR_hit {N : ℕ} {x : Grid} {i j : ℕ}
    (h : i = N + 1 ∧ j = N + 1) :
    updCBR N x i j = (1/2 : ℚ) * (x N (N+1) + x (N+1) N) := if_pos h

/-! ### Region evaluation lemmas for `set_bnd` -/

/-- Interior cells are untouched by the boundary rule (helper). -/
theorem set_bnd_interior_eq (N b : ℕ) (x : Grid) {i j : ℕ}
    (hi1 : 1 ≤ i) (hi2 : i ≤ N) (hj1 : 1 ≤ j) (hj2 : j ≤ N) :
    set_bnd N b x i j = x i j := by
  unfold set_bnd
  rw [updCBR_skip (by omega), updCB0_skip (by omega), updC0R_skip (by omega),
      updC00_skip (by omega), updRight_skip (by omega), updLeft_skip (by omega),
      updBottom_skip (by omega), updTop_skip (by omega)]

/-- Top ghost row after `set_bnd`, at interior columns. -/
theorem set_bnd_row0 (N b : ℕ) (x : Grid) {j : ℕ} (hj1 : 1 ≤ j) (hj2 : j ≤ N) :
    set_bnd N b x 0 j = (if b = 1 then -(x 1 j) else x 1 j) := by
  unfold set_bnd
  rw [updCBR_skip (by omega), updCB0_skip (by omega), updC0R_skip (by omega),
      updC00_skip (by omega), updRight_skip (by omega), updLeft_skip (by omega),
      updBottom_skip (by omega), updTop_hit (by omega)]

/-- Bottom ghost row after `set_bnd`, at interior columns. -/
theorem set_bnd_rowN1 (N b : ℕ) (x : Grid) {j : ℕ} (hj1 : 1 ≤ j) (hj2 : j ≤ N) :
    set_bnd N b x (N+1) j = (if b = 1 then -(x N j) else x N j) := by
  unfold set_bnd
  rw [updCBR_skip (by omega), updCB0_skip (by omega), updC0R_skip (by omega),
      updC00_skip (by omega), updRight_skip (by omega), updLeft_skip (by omega),
      updBottom_hit (by omega), updTop_skip (by omega)]

/-- Left ghost column after `set_bnd`, at interior rows. -/
theorem set_bnd_col0 (N b : ℕ) (x : Grid) {i : ℕ} (hi1 : 1 ≤ i) (hi2 : i ≤ N) :
    set_bnd N b x i 0 = (if b = 2 then -(x i 1) else x i 1) := by
  unfold set_bnd
  rw [updCBR_skip (by omega), updCB0_skip (by omega), updC0R_skip (by omega),
      updC00_skip (by omega), updRight_skip (by omega), updLeft_hit (by omega),
      updBottom_skip (by omega), updTop_skip (by omega)]

/-- Right ghost column after `set_bnd`, at interior rows. -/
theorem set_bnd_colN1 (N b : ℕ) (x : Grid) {i : ℕ} (hi1 : 1 ≤ i) (hi2 : i ≤ N) :
    set_bnd N b x i (N+1) = (if b = 2 then -(x i N) else x i N) := by
  unfold set_bnd
  rw [updCBR_skip (by omega), updCB0_skip (by omega), updC0R_skip (by omega),
      updC00_skip (by omega), updRight_hit (by omega), updLeft_skip (by omega),
      updBottom_skip (by omega), updTop_skip (by omega)]

/-- Corner `(0,0)` after `set_bnd`. -/
theorem set_bnd_c00 (N b : ℕ) (x : Grid) (hN : 1 ≤ N) :
    set_bnd N b x 0 0 =
      (1/2 : ℚ) * ((if b = 2 then -(x 1 1) else x 1 1)
                 + (if b = 1 then -(x 1 1) else x 1 1)) := by
  unfold set_bnd
  rw [updCBR_skip (by omega), updCB0_skip (by omega), updC0R_skip (by omega),
      updC00_hit (by omega)]
  rw [updRight_skip (by omega), updLeft_hit (by omega),
      updBottom_skip (by omega), updTop_skip (by omega)]
  rw [updRight_skip (by omega), updLeft_skip (by omega),
      updBottom_skip (by omega), updTop_hit (by omega)]

/-- Corner `(0,N+1)` after `set_bnd`. -/
theorem set_bnd_c0R (N b : ℕ) (x : Grid) (hN : 1 ≤ N) :
    set_bnd N b x 0 (N+1) =
      (1/2 : ℚ) * ((if b = 2 then -(x 1 N) else x 1 N)
                 + (if b = 1 then -(x 1 N) else x 1 N)) := by
  unfold set_bnd
  rw [updCBR_skip (by omega), updCB0_skip (by omega), updC0R_hit (by omega),
      updC00_skip (by omega)]
  rw [updRight_hit (by omega), updLeft_skip (by omega),
      updBottom_skip (by omega), updTop_skip (by omega)]
  rw [updC00_skip (by omega), updRight_skip (by omega), updLeft_skip (by omega),
      updBottom_skip (by omega), updTop_hit (by omega)]

/-- Corner `(N+1,0)` after `set_bnd`. -/
theorem set_bnd_cB0 (N b : ℕ) (x : Grid) (hN : 1 ≤ N) :
    set_bnd N b x (N+1) 0 =
      (1/2 : ℚ) * ((if b = 2 then -(x N 1) else x N 1)
                 + (if b = 1 then -(x N 1) else x N 1)) := by
  unfold set_bnd
  rw [updCBR_skip (by omega), updCB0_hit (by omega)]
  rw [updC0R_skip (by omega), updC00_skip (by omega), updRight_skip (by omega),
      updLeft_hit (by omega), updBottom_skip (by omega), updTop_skip (by omega)]
  rw [updC0R_skip (by omega), updC00_skip (by omega), updRight_skip (by omega),
      updLeft_skip (by omega), updBottom_hit (by omega), updTop_skip (by omega)]

/-- Corner `(N+1,N+1)` after `set_bnd`. -/
theorem set_bnd_cBR (N b : ℕ) (x : Grid) (hN : 1 ≤ N) :
    set_bnd N b x (N+1) (N+1) =
      (1/2 : ℚ) * ((if b = 2 then -(x N N) else x N N)
                 + (if b = 1 then -(x N N) else x N N)) := by
  unfold set_bnd
  rw [updCBR_hit (by omega)]
  rw [updCB0_skip (by omega), updC0R_skip (by omega), updC00_skip (by omega),
      updRight_hit (by omega), updLeft_skip (by omega),
      updBottom_skip (by omega), updTop_skip (by omega)]
  rw [updCB0_skip (by omega), updC0R_skip (by omega), updC00_skip (by omega),
      updRight_skip (by omega), updLeft_skip (by omega),
      updBottom_hit (by omega), updTop_skip (by omega)]

/-! ## Zero-preservation lemmas -/

theorem updTop_zero (N b : ℕ) : updTop N b zeroGrid = zeroGrid := by
  funext i j; simp [updTop, zeroGrid]

theorem updBottom_zero (N b : ℕ) : updBottom N b zeroGrid = zeroGrid := by
  funext i j; simp [updBottom, zeroGrid]

theorem updLeft_zero (N b : ℕ) : updLeft N b zeroGrid = zeroGrid := by
  funext i j; simp [updLeft, zeroGrid]

theorem updRight_zero (N b : ℕ) : updRight N b zeroGrid = zeroGrid := by
  funext i j; simp [updRight, zeroGrid]

theorem updC00_zero : updC00 zeroGrid = zeroGrid := by
  funext i j; simp [updC00, zeroGrid]

theorem updC0R_zero (N : ℕ) : updC0R N zeroGrid = zeroGrid := by
  funext i j; simp [updC0R, zeroGrid]

theorem updCB0_zero (N : ℕ) : updCB0 N zeroGrid = zeroGrid := by
  funext i j; simp [updCB0, zeroGrid]

theorem updCBR_zero (N : ℕ) : updCBR N zeroGrid = zeroGrid := by
  funext i j; simp [updCBR, zeroGrid]

/-- The boundary rule fixes the all-zero grid. -/
theorem set_bnd_zero (N b : ℕ) : set_bnd N b zeroGrid = zeroGrid := by
  unfold set_bnd
  rw [updTop_zero, updBottom_zero, updLeft_zero, updRight_zero, updC00_zero,
      updC0R_zero, updCB0_zero, updCBR_zero]

/-- Helper: `set_bnd` of anything extensionally zero is zero. -/
theorem set_bnd_congr_zero (N b : ℕ) {f : Grid} (hf : f = zeroGrid) :
    set_bnd N b f = zeroGrid := by rw [hf]; exact set_bnd_zero N b

theorem add_source_zero (dt : ℚ) : add_source zeroGrid zeroGrid dt = zeroGrid := by
  funext i j; simp [add_source, zeroGrid]

theorem diffuseIter_zero (N b : ℕ) (a c : ℚ) :
    diffuseIter N b zeroGrid a c zeroGrid = zeroGrid := by
  unfold diffuseIter
  apply set_bnd_congr_zero
  funext i j; simp [zeroGrid]

theorem diffuse_zero (N b : ℕ) (diff dt : ℚ) (iters : ℕ) :
    diffuse N b zeroGrid zeroGrid diff dt iters = zeroGrid := by
  unfold diffuse
  exact Function.iterate_fixed (diffuseIter_zero N b _ _) iters

/-- The bilinear sample of the zero source field is zero, whatever the
weights are. -/
theorem bilinSample_zero (N : ℕ) (u v : Grid) (dt : ℚ) (i j : ℕ) :
    bilinSample N zeroGrid u v dt i j = 0 := by
  simp [bilinSample, zeroGrid]

/-- Advecting the zero source field yields the zero field, whatever the
transporting velocities are. -/
theorem advect_zero (N b : ℕ) (u v : Grid) (dt : ℚ) :
    advect N b zeroGrid zeroGrid u v dt = zeroGrid := by
  unfold advect
  apply set_bnd_congr_zero
  funext i j; simp [zeroGrid, bilinSample_zero]

theorem projectIter_zero (N : ℕ) : projectIter N zeroGrid zeroGrid = zeroGrid := by
  unfold projectIter
  apply set_bnd_congr_zero
  funext i j; simp [zeroGrid]

theorem divStage_zero (N : ℕ) : divStage N zeroGrid zeroGrid zeroGrid = zeroGrid := by
  unfold divStage
  apply set_bnd_congr_zero
  funext i j; simp [zeroGrid]

theorem pSolve_zero (N iters : ℕ) : pSolve N iters zeroGrid = zeroGrid := by
  unfold pSolve
  rw [set_bnd_zero]
  exact Function.iterate_fixed (projectIter_zero N) iters

theorem gradU_zero (N : ℕ) : gradU N zeroGrid zeroGrid = zeroGrid := by
  unfold gradU
  apply set_bnd_congr_zero
  funext i j; simp [zeroGrid]

theorem gradV_zero (N : ℕ) : gradV N zeroGrid zeroGrid = zeroGrid := by
  unfold gradV
  apply set_bnd_congr_zero
  funext i j; simp [zeroGrid]

theorem project_zero (N iters : ℕ) :
    project N iters zeroGrid zeroGrid zeroGrid zeroGrid =
      (zeroGrid, zeroGrid, zeroGrid, zeroGrid) := by
  simp only [project, divStage_zero, pSolve_zero, gradU_zero, gradV_zero]

theorem buoyancy_zero (N : ℕ) (coeff dt : ℚ) :
    buoyancy_force N zeroGrid zeroGrid coeff dt = zeroGrid := by
  unfold buoyancy_force
  split
  · rfl
  · apply set_bnd_congr_zero
    funext i j; simp [zeroGrid]

theorem curlG_zero (N : ℕ) : curlG N zeroGrid zeroGrid = zeroGrid := by
  funext i j; simp [curlG, zeroGrid]

theorem abswG_zero (N : ℕ) : abswG N zeroGrid zeroGrid = zeroGrid := by
  funext i j; simp [abswG, curlG_zero, zeroGrid]

theorem nxG_zero (N : ℕ) : nxG N zeroGrid zeroGrid = zeroGrid := by
  funext i j; simp [nxG, abswG_zero, zeroGrid]

theorem nyG_zero (N : ℕ) : nyG N zeroGrid zeroGrid = zeroGrid := by
  funext i j; simp [nyG, abswG_zero, zeroGrid]

theorem fxG_zero (N : ℕ) (sq : ℚ → ℚ) (eps : ℚ) :
    fxG N sq zeroGrid zeroGrid eps = zeroGrid := by
  funext i j; simp [fxG, nyG_zero, curlG_zero, zeroGrid]

theorem fyG_zero (N : ℕ) (sq : ℚ → ℚ) (eps : ℚ) :
    fyG N sq zeroGrid zeroGrid eps = zeroGrid := by
  funext i j; simp [fyG, nxG_zero, curlG_zero, zeroGrid]

theorem vorticity_zero (N : ℕ) (sq : ℚ → ℚ) (eps dt : ℚ) :
    vorticity_confinement N sq zeroGrid zeroGrid eps dt = (zeroGrid, zeroGrid) := by
  unfold vorticity_confinement
  split
  · rfl
  · refine Prod.ext ?_ ?_
    · apply set_bnd_congr_zero
      funext i j; simp [fxG_zero, zeroGrid]
    · apply set_bnd_congr_zero
      funext i j; simp [fyG_zero, zeroGrid]

/-- One full tick fixes the all-zero state. -/
theorem vel_step_zeroFS (P : Params) (dt : ℚ) (sq : ℚ → ℚ) :
    vel_step P dt sq zeroFS = zeroFS := by
  simp only [vel_step, zeroFS, add_source_zero, buoyancy_zero, vorticity_zero,
    diffuse_zero, project_zero, advect_zero]

theorem dens_step_zeroFS (P : Params) (dt : ℚ) :
    dens_step P dt zeroFS = zeroFS := by
  simp only [dens_step, zeroFS, add_source_zero, diffuse_zero, advect_zero]

theorem step_zeroFS (P : Params) (dt : ℚ) (sq : ℚ → ℚ) :
    step P dt sq zeroFS = zeroFS := by
  unfold step
  rw [vel_step_zeroFS, dens_step_zeroFS]

/-! ## Claim theorems -/

/-- C3: in every call to `step(dt)`, the velocity sub-step performs its
phases in exactly the spec's order — queued sources applied from `u0, v0`
and those buffers zeroed; buoyancy; vorticity confinement; diffusion of
`u, v` against a copy of the pre-diffusion velocity; projection; advection
of `u, v` by the velocity field itself; a second projection.  In
particular vorticity confinement happens before diffusion and before the
first projection, never between advection and the second projection: the
source-translated `vel_step` coincides with the spec-ordered pipeline
`velStepSpec`. -/
theorem vel_step_matches_spec_order (P : Params) (dt : ℚ) (sq : ℚ → ℚ)
    (s : FluidState) : vel_step P dt sq s = velStepSpec P dt sq s := rfl

/-- C8: for every field and every kind, the boundary rule modifies only
the edge strips and corners — every interior cell `(i, j)` with
`1 ≤ i, j ≤ N` holds exactly the same value after the call as before. -/
theorem set_bnd_interior_frame (N b : ℕ) (x : Grid) (i j : ℕ)
    (hi1 : 1 ≤ i) (hi2 : i ≤ N) (hj1 : 1 ≤ j) (hj2 : j ≤ N) :
    set_bnd N b x i j = x i j :=
  set_bnd_interior_eq N b x hi1 hi2 hj1 hj2

theorem set_bnd_interior_frame_witness :
    set_bnd 3 2 (fun i j => (i : ℚ) * 7 + (j : ℚ)) 2 3 =
      (fun i j : ℕ => (i : ℚ) * 7 + (j : ℚ)) 2 3 :=
  set_bnd_interior_frame 3 2 (fun i j => (i : ℚ) * 7 + (j : ℚ)) 2 3
    (by norm_num) (by norm_num) (by norm_num) (by norm_num)

/-- C4: after the boundary rule with kind HORIZONTAL_VELOCITY (`b = 1`),
ghost row `0` is the negation of row `1` and ghost row `N+1` the negation
of row `N` at every interior column; with kind SCALAR (`b = 0`), ghost
row `0` equals row `1` with the same sign. -/
theorem set_bnd_row_reflection (N : ℕ) (x : Grid) (j : ℕ)
    (hj1 : 1 ≤ j) (hj2 : j ≤ N) :
    set_bnd N 1 x 0 j = -(set_bnd N 1 x 1 j) ∧
    set_bnd N 1 x (N+1) j = -(set_bnd N 1 x N j) ∧
    set_bnd N 0 x 0 j = set_bnd N 0 x 1 j := by
  have hN : 1 ≤ N := le_trans hj1 hj2
  refine ⟨?_, ?_, ?_⟩
  · rw [set_bnd_row0 N 1 x hj1 hj2,
        set_bnd_interior_eq N 1 x (le_refl 1) hN hj1 hj2]
    simp
  · rw [set_bnd_rowN1 N 1 x hj1 hj2,
        set_bnd_interior_eq N 1 x hN (le_refl N) hj1 hj2]
    simp
  · rw [set_bnd_row0 N 0 x hj1 hj2,
        set_bnd_interior_eq N 0 x (le_refl 1) hN hj1 hj2]
    simp

theorem set_bnd_row_reflection_witness :
    set_bnd 3 1 (fun _ _ => (5 : ℚ)) 0 2 = -(set_bnd 3 1 (fun _ _ => (5 : ℚ)) 1 2) ∧
    set_bnd 3 1 (fun _ _ => (5 : ℚ)) 4 2 = -(set_bnd 3 1 (fun _ _ => (5 : ℚ)) 3 2) ∧
    set_bnd 3 0 (fun _ _ => (5 : ℚ)) 0 2 = set_bnd 3 0 (fun _ _ => (5 : ℚ)) 1 2 :=
  set_bnd_row_reflection 3 (fun _ _ => (5 : ℚ)) 2 (by norm_num) (by norm_num)

/-- C5: after the boundary rule with any kind, each of the four corner
cells equals the average of its two adjacent edge cells — in particular
`(0,0)` equals `0.5 * (field[1,0] + field[0,1])` of the resulting field. -/
theorem set_bnd_corner_average (N b : ℕ) (x : Grid) (hN : 1 ≤ N) :
    set_bnd N b x 0 0 =
      (1/2 : ℚ) * (set_bnd N b x 1 0 + set_bnd N b x 0 1) ∧
    set_bnd N b x 0 (N+1) =
      (1/2 : ℚ) * (set_bnd N b x 1 (N+1) + set_bnd N b x 0 N) ∧
    set_bnd N b x (N+1) 0 =
      (1/2 : ℚ) * (set_bnd N b x N 0 + set_bnd N b x (N+1) 1) ∧
    set_bnd N b x (N+1) (N+1) =
      (1/2 : ℚ) * (set_bnd N b x N (N+1) + set_bnd N b x (N+1) N) := by
  refine ⟨?_, ?_, ?_, ?_⟩
  · rw [set_bnd_c00 N b x hN, set_bnd_col0 N b x (le_refl 1) hN,
        set_bnd_row0 N b x (le_refl 1) hN]
  · rw [set_bnd_c0R N b x hN, set_bnd_colN1 N b x (le_refl 1) hN,
        set_bnd_row0 N b x hN (le_refl N)]
  · rw [set_bnd_cB0 N b x hN, set_bnd_col0 N b x hN (le_refl N),
        set_bnd_rowN1 N b x (le_refl 1) hN]
  · rw [set_bnd_cBR N b x hN, set_bnd_colN1 N b x hN (le_refl N),
        set_bnd_rowN1 N b x hN (le_refl N)]

theorem set_bnd_corner_average_witness :
    set_bnd 2 1 (fun i j => (i : ℚ) + 2 * (j : ℚ)) 0 0 =
      (1/2 : ℚ) * (set_bnd 2 1 (fun i j => (i : ℚ) + 2 * (j : ℚ)) 1 0 +
                   set_bnd 2 1 (fun i j => (i : ℚ) + 2 * (j : ℚ)) 0 1) ∧
    set_bnd 2 1 (fun i j => (i : ℚ) + 2 * (j : ℚ)) 0 3 =
      (1/2 : ℚ) * (set_bnd 2 1 (fun i j => (i : ℚ) + 2 * (j : ℚ)) 1 3 +
                   set_bnd 2 1 (fun i j => (i : ℚ) + 2 * (j : ℚ)) 0 2) ∧
    set_bnd 2 1 (fun i j => (i : ℚ) + 2 * (j : ℚ)) 3 0 =
      (1/2 : ℚ) * (set_bnd 2 1 (fun i j => (i : ℚ) + 2 * (j : ℚ)) 2 0 +
                   set_bnd 2 1 (fun i j => (i : ℚ) + 2 * (j : ℚ)) 3 1) ∧
    set_bnd 2 1 (fun i j => (i : ℚ) + 2 * (j : ℚ)) 3 3 =
      (1/2 : ℚ) * (set_bnd 2 1 (fun i j => (i : ℚ) + 2 * (j : ℚ)) 2 3 +
                   set_bnd 2 1 (fun i j => (i : ℚ) + 2 * (j : ℚ)) 3 2) :=
  set_bnd_corner_average 2 1 (fun i j => (i : ℚ) + 2 * (j : ℚ)) (by norm_num)

/-- The all-zero state satisfies `allZero`. -/
theorem allZero_zeroFS : allZero zeroFS :=
  fun _ _ => ⟨rfl, rfl, rfl, rfl, rfl, rfl, rfl, rfl⟩

/-- C1: for a FluidState whose eight fields are all exactly zero in every
cell, calling `step(dt)` any number of times with no source injection
leaves every cell of every field exactly zero — the all-zero state is a
fixed point of `step`, for every parameter set, timestep, and model of
`np.sqrt`. -/
theorem step_zero_fixed (P : Params) (dt : ℚ) (sq : ℚ → ℚ) (s : FluidState)
    (h : allZero s) (n : ℕ) : allZero ((step P dt sq)^[n] s) := by
  have hs : s = zeroFS := by
    refine FluidState.ext ?_ ?_ ?_ ?_ ?_ ?_ ?_ ?_ <;> funext i j
    · exact (h i j).1
    · exact (h i j).2.1
    · exact (h i j).2.2.1
    · exact (h i j).2.2.2.1
    · exact (h i j).2.2.2.2.1
    · exact (h i j).2.2.2.2.2.1
    · exact (h i j).2.2.2.2.2.2.1
    · exact (h i j).2.2.2.2.2.2.2
  subst hs
  rw [Function.iterate_fixed (step_zeroFS P dt sq) n]
  exact allZero_zeroFS

theorem step_zero_fixed_witness :
    allZero ((step (Params.mk 16 (1/60) (1/50000) (1/10000) 4 (3/5) 2)
      (1/10) (fun q => q))^[3] zeroFS) :=
  step_zero_fixed (Params.mk 16 (1/60) (1/50000) (1/10000) 4 (3/5) 2)
    (1/10) (fun q => q) zeroFS
    (fun _ _ => ⟨rfl, rfl, rfl, rfl, rfl, rfl, rfl, rfl⟩) 3

/-- With zero transporting velocity the backtraced x-coordinate is the
cell center itself. -/
theorem backX_zero_vel (N : ℕ) (dt : ℚ) (i j : ℕ)
    (hi1 : 1 ≤ i) (hi2 : i ≤ N) : backX N zeroGrid dt i j = (i : ℚ) := by
  unfold backX
  have h1 : ((1 : ℚ)/2) ≤ (i : ℚ) := by
    have : (1 : ℚ) ≤ (i : ℚ) := by exact_mod_cast hi1
    linarith
  have h2 : (i : ℚ) ≤ (N : ℚ) + 1/2 := by
    have : (i : ℚ) ≤ (N : ℚ) := by exact_mod_cast hi2
    linarith
  rw [show (i : ℚ) - dt * (N : ℚ) * zeroGrid i j = (i : ℚ) by simp [zeroGrid]]
  rw [max_eq_left h1, min_eq_left h2]

/-- With zero transporting velocity the backtraced y-coordinate is the
cell center itself. -/
theorem backY_zero_vel (N : ℕ) (dt : ℚ) (i j : ℕ)
    (hj1 : 1 ≤ j) (hj2 : j ≤ N) : backY N zeroGrid dt i j = (j : ℚ) := by
  unfold backY
  have h1 : ((1 : ℚ)/2) ≤ (j : ℚ) := by
    have : (1 : ℚ) ≤ (j : ℚ) := by exact_mod_cast hj1
    linarith
  have h2 : (j : ℚ) ≤ (N : ℚ) + 1/2 := by
    have : (j : ℚ) ≤ (N : ℚ) := by exact_mod_cast hj2
    linarith
  rw [show (j : ℚ) - dt * (N : ℚ) * zeroGrid i j = (j : ℚ) by simp [zeroGrid]]
  rw [max_eq_left h1, min_eq_left h2]

/-- With zero transporting velocity the bilinear weights select the source
cell itself. -/
theorem bilinSample_zero_vel (N : ℕ) (d0 : Grid) (dt : ℚ) (i j : ℕ)
    (hi1 : 1 ≤ i) (hi2 : i ≤ N) (hj1 : 1 ≤ j) (hj2 : j ≤ N) :
    bilinSample N d0 zeroGrid zeroGrid dt i j = d0 i j := by
  simp only [bilinSample, backX_zero_vel N dt i j hi1 hi2,
    backY_zero_vel N dt i j hj1 hj2, Int.floor_natCast, Int.toNat_natCast,
    Int.cast_natCast, sub_self]
  ring

/-- C6: if the transporting velocity fields are zero everywhere then for
every source field, destination field, kind and `dt`, `advect` writes
`dst[i,j] = src[i,j]` exactly at every interior cell. -/
theorem advect_zero_velocity_identity (N b : ℕ) (d d0 : Grid) (dt : ℚ)
    (i j : ℕ) (hi1 : 1 ≤ i) (hi2 : i ≤ N) (hj1 : 1 ≤ j) (hj2 : j ≤ N) :
    advect N b d d0 zeroGrid zeroGrid dt i j = d0 i j := by
  unfold advect
  rw [set_bnd_interior_eq N b _ hi1 hi2 hj1 hj2]
  show (if 1 ≤ i ∧ i ≤ N ∧ 1 ≤ j ∧ j ≤ N then
          bilinSample N d0 zeroGrid zeroGrid dt i j
        else d i j) = d0 i j
  rw [if_pos ⟨hi1, hi2, hj1, hj2⟩]
  exact bilinSample_zero_vel N d0 dt i j hi1 hi2 hj1 hj2

theorem advect_zero_velocity_identity_witness :
    advect 3 0 (fun _ _ => (1 : ℚ)) (fun i j => (i : ℚ) * 10 + (j : ℚ))
      zeroGrid zeroGrid 7 2 3 =
      (fun i j : ℕ => (i : ℚ) * 10 + (j : ℚ)) 2 3 :=
  advect_zero_velocity_identity 3 0 (fun _ _ => (1 : ℚ))
    (fun i j => (i : ℚ) * 10 + (j : ℚ)) 7 2 3
    (by norm_num) (by norm_num) (by norm_num) (by norm_num)

/-- The clip used by the backtrace keeps a coordinate inside
`[1/2, N + 1/2]`. -/
theorem clipQ_bounds (t : ℚ) (N : ℕ) :
    (1/2 : ℚ) ≤ min (max t (1/2)) ((N : ℚ) + 1/2) ∧
    min (max t (1/2)) ((N : ℚ) + 1/2) ≤ (N : ℚ) + 1/2 := by
  constructor
  · refine le_min (le_max_right t (1/2)) ?_
    have h0 : (0 : ℚ) ≤ (N : ℚ) := Nat.cast_nonneg N
    linarith
  · exact min_le_right _ _

/-- A coordinate in `[1/2, N + 1/2]` floors into `[0, N]`. -/
theorem floor_clip_bounds (q : ℚ) (N : ℕ) (h1 : (1/2 : ℚ) ≤ q)
    (h2 : q ≤ (N : ℚ) + 1/2) : 0 ≤ ⌊q⌋ ∧ ⌊q⌋ + 1 ≤ (N : ℤ) + 1 := by
  constructor
  · refine Int.le_floor.mpr ?_
    push_cast
    linarith
  · have h3 : ⌊q⌋ < (N : ℤ) + 1 := by
      refine Int.floor_lt.mpr ?_
      push_cast
      linarith
  
    omega

/-- C7: for every velocity field, timestep and cell, the backtraced sample
coordinates used by `advect` are clamped to `[0.5, N + 0.5]`, so the four
bilinear sample indices `i0, i0+1, j0, j0+1` lie within the valid index
range `[0, N+1]`. -/
theorem advect_backtrace_bounds (N : ℕ) (u v : Grid) (dt : ℚ) (i j : ℕ) :
    ((1/2 : ℚ) ≤ backX N u dt i j ∧ backX N u dt i j ≤ (N : ℚ) + 1/2) ∧
    (0 ≤ ⌊backX N u dt i j⌋ ∧ ⌊backX N u dt i j⌋ + 1 ≤ (N : ℤ) + 1) ∧
    ((1/2 : ℚ) ≤ backY N v dt i j ∧ backY N v dt i j ≤ (N : ℚ) + 1/2) ∧
    (0 ≤ ⌊backY N v dt i j⌋ ∧ ⌊backY N v dt i j⌋ + 1 ≤ (N : ℤ) + 1) := by
  have hx := clipQ_bounds ((i : ℚ) - dt * (N : ℚ) * u i j) N
  have hy := clipQ_bounds ((j : ℚ) - dt * (N : ℚ) * v i j) N
  exact ⟨hx, floor_clip_bounds _ N hx.1 hx.2, hy, floor_clip_bounds _ N hy.1 hy.2⟩

/-- `diffuse` unfolded to its Jacobi iteration. -/
theorem diffuse_apply (N b : ℕ) (x x0 : Grid) (diff dt : ℚ) (iters : ℕ) :
    diffuse N b x x0 diff dt iters =
      (diffuseIter N b x0 (dt * diff * (N : ℚ) * (N : ℚ))
        (1 / (1 + 4 * (dt * diff * (N : ℚ) * (N : ℚ)))))^[iters] x := rfl

/-- Interior value of one Jacobi sweep. -/
theorem diffuseIter_interior (N b : ℕ) (x0 : Grid) (a c : ℚ) (y : Grid)
    {i j : ℕ} (hi1 : 1 ≤ i) (hi2 : i ≤ N) (hj1 : 1 ≤ j) (hj2 : j ≤ N) :
    diffuseIter N b x0 a c y i j =
      c * (x0 i j + a * (y (i-1) j + y (i+1) j + y i (j-1) + y i (j+1))) := by
  unfold diffuseIter
  rw [set_bnd_interior_eq N b _ hi1 hi2 hj1 hj2]
  exact if_pos ⟨hi1, hi2, hj1, hj2⟩

/-- C9: with diffusion coefficient exactly zero, the relaxation weight
`a = dt*diff*N*N` is zero and the denominator is one, so `diffuse` sets
every interior cell of `x` equal to the corresponding cell of the
reference field `x0`, for any positive iteration count and any `dt`. -/
theorem diffuse_zero_coeff_copies (N b : ℕ) (x x0 : Grid) (dt : ℚ)
    (iters : ℕ) (hit : 1 ≤ iters) (i j : ℕ)
    (hi1 : 1 ≤ i) (hi2 : i ≤ N) (hj1 : 1 ≤ j) (hj2 : j ≤ N) :
    diffuse N b x x0 0 dt iters i j = x0 i j := by
  obtain ⟨k, rfl⟩ : ∃ k, iters = k + 1 := ⟨iters - 1, by omega⟩
  rw [diffuse_apply, Function.iterate_succ_apply',
      diffuseIter_interior N b x0 _ _ _ hi1 hi2 hj1 hj2]
  norm_num

theorem diffuse_zero_coeff_copies_witness :
    diffuse 2 0 (fun _ _ => (3 : ℚ)) (fun _ _ => (7 : ℚ)) 0 (1/10) 5 1 1 =
      (7 : ℚ) :=
  diffuse_zero_coeff_copies 2 0 (fun _ _ => (3 : ℚ)) (fun _ _ => (7 : ℚ))
    (1/10) 5 (by norm_num) 1 1 (by norm_num) (by norm_num) (by norm_num)
    (by norm_num)

/-- C10: source injection updates every cell of the target field, ghost
cells included — `field[c]` becomes `field[c] + dt * source[c]` for all
cells of the full grid — and no boundary rule is applied within the
injection: a nonzero value in the ghost corner of the source buffer lands
in the ghost corner of the field, where the boundary rule would instead
have produced `0`. -/
theorem add_source_all_cells (x s : Grid) (dt : ℚ) :
    (∀ i j : ℕ, add_source x s dt i j = x i j + dt * s i j) ∧
    add_source zeroGrid (fun i j => if i = 0 ∧ j = 0 then 1 else 0) 1 0 0 = 1 ∧
    set_bnd 4 0 (add_source zeroGrid
      (fun i j => if i = 0 ∧ j = 0 then 1 else 0) 1) 0 0 = 0 := by
  refine ⟨fun i j => rfl, ?_, ?_⟩
  · simp [add_source, zeroGrid]
  · rw [set_bnd_c00 4 0 _ (by norm_num)]
    norm_num [add_source, zeroGrid]

/-- For any center, the clipped loop-range conditions of the brush with
effective radius `1` are equivalent to membership of the unit disk
intersected with the interior. -/
theorem brush_unit_disk_cond (N : ℕ) (ci cj : ℤ) (ii jj : ℕ) :
    (max 1 (ci - 1) ≤ (ii : ℤ) ∧ (ii : ℤ) ≤ min (N : ℤ) (ci + 1) ∧
     max 1 (cj - 1) ≤ (jj : ℤ) ∧ (jj : ℤ) ≤ min (N : ℤ) (cj + 1) ∧
     ((ii : ℤ) - ci) ^ 2 + ((jj : ℤ) - cj) ^ 2 ≤ 1 * 1) ↔
    (1 ≤ ii ∧ ii ≤ N ∧ 1 ≤ jj ∧ jj ≤ N ∧
     ((ii : ℤ) - ci) ^ 2 + ((jj : ℤ) - cj) ^ 2 ≤ 1) := by
  constructor
  · rintro ⟨h1, h2, h3, h4, h5⟩
    have e1 : (1 : ℤ) ≤ (ii : ℤ) := le_trans (le_max_left _ _) h1
    have e2 : (ii : ℤ) ≤ (N : ℤ) := le_trans h2 (min_le_left _ _)
    have e3 : (1 : ℤ) ≤ (jj : ℤ) := le_trans (le_max_left _ _) h3
    have e4 : (jj : ℤ) ≤ (N : ℤ) := le_trans h4 (min_le_left _ _)
    exact ⟨by omega, by omega, by omega, by omega, by linarith⟩
  · rintro ⟨h1, h2, h3, h4, h5⟩
    have s1 : ((ii : ℤ) - ci) ^ 2 ≤ 1 := by nlinarith [sq_nonneg ((jj : ℤ) - cj)]
    have b1 : (ii : ℤ) - ci ≤ 1 := by nlinarith [sq_nonneg ((ii : ℤ) - ci - 1)]
    have b2 : -1 ≤ (ii : ℤ) - ci := by nlinarith [sq_nonneg ((ii : ℤ) - ci + 1)]
    have s2 : ((jj : ℤ) - cj) ^ 2 ≤ 1 := by nlinarith [sq_nonneg ((ii : ℤ) - ci)]
    have b3 : (jj : ℤ) - cj ≤ 1 := by nlinarith [sq_nonneg ((jj : ℤ) - cj - 1)]
    have b4 : -1 ≤ (jj : ℤ) - cj := by nlinarith [sq_nonneg ((jj : ℤ) - cj + 1)]
    have c1 : (1 : ℤ) ≤ (ii : ℤ) := by exact_mod_cast h1
    have c2 : (ii : ℤ) ≤ (N : ℤ) := by exact_mod_cast h2
    have c3 : (1 : ℤ) ≤ (jj : ℤ) := by exact_mod_cast h3
    have c4 : (jj : ℤ) ≤ (N : ℤ) := by exact_mod_cast h4
    refine ⟨max_le (by omega) (by omega), le_min (by omega) (by omega),
            max_le (by omega) (by omega), le_min (by omega) (by omega),
            by linarith⟩

/-- C2 counterexample: with `N = 4`, center `(2,2)`, `amount = 1` and
`radius = 0`, the brush also adds `amount` to cell `(1,2)`, which differs
from the clamped center `(clamp(2,1,4), clamp(2,1,4)) = (2,2)` — so the
brush with radius `0` does not modify exactly one cell. -/
theorem add_density_brush_radius_zero_cex :
    add_density_brush 4 2 2 1 0 zeroGrid 1 2 = 1 ∧
    zeroGrid 1 2 = 0 ∧ clampI 2 1 4 = 2 := by
  refine ⟨?_, rfl, by decide⟩
  simp only [add_density_brush]
  rw [if_pos (by decide)]
  norm_num [zeroGrid]

/-- C2 amended: the brush with `radius = 0` uses the coerced radius
`r = max(1, radius) = 1`; it adds `amount` to exactly the cells `(ii,jj)`
of `[1,N]²` with `(ii-ci)² + (jj-cj)² ≤ 1` around the clamped center
`(ci, cj) = (clamp(i,1,N), clamp(j,1,N))` — up to five cells — and leaves
every other cell of `dens0` and every other field unchanged. -/
theorem add_density_brush_radius_zero_char (N : ℕ) (i j : ℤ)
    (amount : ℚ) (s : FluidState) (ii jj : ℕ) :
    (addDensityBrushFS N i j amount 0 s).dens0 ii jj =
      (if 1 ≤ ii ∧ ii ≤ N ∧ 1 ≤ jj ∧ jj ≤ N ∧
          ((ii : ℤ) - clampI i 1 N) ^ 2 + ((jj : ℤ) - clampI j 1 N) ^ 2 ≤ 1
       then s.dens0 ii jj + amount else s.dens0 ii jj) ∧
    (addDensityBrushFS N i j amount 0 s).u = s.u ∧
    (addDensityBrushFS N i j amount 0 s).v = s.v ∧
    (addDensityBrushFS N i j amount 0 s).u0 = s.u0 ∧
    (addDensityBrushFS N i j amount 0 s).v0 = s.v0 ∧
    (addDensityBrushFS N i j amount 0 s).dens = s.dens ∧
    (addDensityBrushFS N i j amount 0 s).p = s.p ∧
    (addDensityBrushFS N i j amount 0 s).div = s.div := by
  refine ⟨?_, rfl, rfl, rfl, rfl, rfl, rfl, rfl⟩
  show add_density_brush N i j amount 0 s.dens0 ii jj = _
  simp only [add_density_brush]
  rw [show max (1 : ℤ) 0 = 1 by norm_num]
  rw [if_congr (brush_unit_disk_cond N (clampI i 1 N) (clampI j 1 N) ii jj)
    rfl rfl]
